import Mathlib

/-!
Shallow embedding of the purchase-event reconciliation core of
`iaptic/react-native-iap-demo` (file `src/iaptic-rn/classes/IapEventsProcessor.ts`),
together with theorems settling the specification claims about it.

The JavaScript runtime is single-threaded with cooperative scheduling: an
`async` function runs atomically between `await` points.  We therefore model
a single invocation of `processPurchase` as a pure function from an input
state and an environment (the outcomes of the external validation and
finalize calls) to an output state plus a record of its observable effects,
and we model interleaved invocations with a small-step machine whose atomic
steps are exactly the code's await-to-await blocks.
-/

namespace IapCore

/-- The per-product pending-purchase states used by
`iaptic.pendingPurchases` (strings `idle`, `validating`, `finishing`,
`completed` in the source). -/
inductive PendingStatus
  | idle
  | validating
  | finishing
  | completed
deriving DecidableEq, Repr

/-- Product types returned by `iaptic.products.getType` (source strings:
`consumable`, `non consumable`, `paid subscription`). -/
inductive ProductType
  | consumable
  | nonConsumable
  | paidSubscription
deriving DecidableEq, Repr

/-- Outcome of the external `iaptic.validate` call: it resolves with a
boolean `verified` flag, or rejects (throws). -/
inductive ValidateOutcome
  | ok (verified : Bool)
  | err
deriving DecidableEq, Repr

/-- A platform purchase event (`IAP.ProductPurchase` /
`IAP.SubscriptionPurchase`): a required product identifier, an optional
transaction identifier, and an opaque payload distinguishing deliveries. -/
structure Purchase where
  productId : String
  transactionId : Option String
  payload : Nat
deriving DecidableEq, Repr

/-- The cache identity of a purchase, from source line 66:
`purchase.transactionId ?? purchase.productId`. -/
def identityOf (p : Purchase) : String :=
  p.transactionId.getD p.productId

/-- The coalescing key used by `purchaseProcessor`, from source line 27:
`p.transactionId ?? ''`. -/
def dedupKey (p : Purchase) : String :=
  p.transactionId.getD ""

/-- Association-list update-or-append, the semantics of `Map.set` for a
string-keyed map: replace the entry for the key in place if present,
otherwise append a new entry. -/
def setKey {α : Type} : List (String × α) → String → α → List (String × α)
  | [], k, v => [(k, v)]
  | (k', v') :: rest, k, v =>
      if k' = k then (k, v) :: rest else (k', v') :: setKey rest k v

/-- Association-list removal, the semantics of `Map.delete`. -/
def removeKey {α : Type} : List (String × α) → String → List (String × α)
  | [], _ => []
  | (k', v') :: rest, k =>
      if k' = k then rest else (k', v') :: removeKey rest k

/-- Association-list lookup, the semantics of `Map.get`. -/
def lookupKey {α : Type} : List (String × α) → String → Option α
  | [], _ => Option.none
  | (k', v') :: rest, k =>
      if k' = k then Option.some v' else lookupKey rest k

/-- `pendingPurchases.getStatus`: current state for a product, `idle` if
unknown. -/
def getStatusL (m : List (String × PendingStatus)) (pid : String) : PendingStatus :=
  (lookupKey m pid).getD PendingStatus.idle

/-- `pendingPurchases.update`: unconditional set. -/
def updateStatus (m : List (String × PendingStatus)) (pid : String)
    (s : PendingStatus) : List (String × PendingStatus) :=
  setKey m pid s

/-- The mutable state shared by event-processor invocations: the process-wide
`active_iap_events_processor` global, the per-product pending-status map, and
the identity-keyed purchase cache. -/
structure PState where
  activeProcessor : String
  statuses : List (String × PendingStatus)
  cache : List (String × Purchase)
deriving DecidableEq, Repr

/-- How a single `processPurchase` invocation exits. -/
inductive RunExit
  | skippedStale
  | waitedForPeer
  | completedRun
  | raisedError
  | emittedError
deriving DecidableEq, Repr

/-- Observable effects of one `processPurchase` invocation: the arguments of
its calls to `iaptic.validate` and to `IAP.finishTransaction`, the number of
`error` domain events emitted, the number of swallowed-and-logged finalize
failures, and the sequence of pending-status writes for the product. -/
structure Effects where
  validateCalls : List Purchase
  finishCalls : List Purchase
  errorEvents : Nat
  finishFailLogs : Nat
  statusWrites : List PendingStatus
deriving DecidableEq, Repr

/-- The empty effect record. -/
def noEffects : Effects := ⟨[], [], 0, 0, []⟩

/-- Environment of one invocation: the outcome the external validation call
resolves with, the product's catalog type, and whether the
`IAP.finishTransaction` call rejects. -/
structure Env where
  validate : ValidateOutcome
  ptype : ProductType
  finishFails : Bool
deriving DecidableEq, Repr

/-- One invocation of `IapEventsProcessor.processPurchase(purchase,
inBackground)` by the processor instance `selfId`, embedded from source
lines 59-137.  Control flow:
  * return immediately when the `active_iap_events_processor` global is not
    `selfId` (lines 60-62);
  * cache the purchase under its identity (line 66);
  * if the product's status is `validating`, wait for the peer and serve the
    cached result (lines 83-91; the wait loop itself is modelled separately
    by `waitPoll`);
  * otherwise set status `validating` and call `iaptic.validate` (93-94);
  * on a validation error, emit an `error` event when in background or
    rethrow otherwise (71-78, 110-113);
  * on `verified = false`, set `finishing`, attempt `finishTransaction` once
    (a failure is logged only), set `completed` (96-108);
  * on `verified = true`, finish non-consumables and paid subscriptions
    (again tolerating failure), leave consumables unfinished, set
    `completed` (116-136). -/
def processPurchase (selfId : String) (env : Env) (st : PState) (p : Purchase)
    (inBackground : Bool) : PState × Effects × RunExit :=
  if st.activeProcessor ≠ selfId then
    (st, noEffects, RunExit.skippedStale)
  else
    let st1 : PState := { st with cache := setKey st.cache (identityOf p) p }
    if getStatusL st1.statuses p.productId = PendingStatus.validating then
      (st1, noEffects, RunExit.waitedForPeer)
    else
      let st2 : PState :=
        { st1 with statuses := updateStatus st1.statuses p.productId PendingStatus.validating }
      match env.validate with
      | ValidateOutcome.err =>
          if inBackground then
            (st2, ⟨[p], [], 1, 0, [PendingStatus.validating]⟩, RunExit.emittedError)
          else
            (st2, ⟨[p], [], 0, 0, [PendingStatus.validating]⟩, RunExit.raisedError)
      | ValidateOutcome.ok false =>
          let st3 : PState :=
            { st2 with statuses := updateStatus st2.statuses p.productId PendingStatus.finishing }
          let st4 : PState :=
            { st3 with statuses := updateStatus st3.statuses p.productId PendingStatus.completed }
          (st4,
           ⟨[p], [p], 0, if env.finishFails then 1 else 0,
            [PendingStatus.validating, PendingStatus.finishing, PendingStatus.completed]⟩,
           RunExit.completedRun)
      | ValidateOutcome.ok true =>
          match env.ptype with
          | ProductType.consumable =>
              let st3 : PState :=
                { st2 with statuses := updateStatus st2.statuses p.productId PendingStatus.completed }
              (st3,
               ⟨[p], [], 0, 0, [PendingStatus.validating, PendingStatus.completed]⟩,
               RunExit.completedRun)
          | _ =>
              let st3 : PState :=
                { st2 with statuses := updateStatus st2.statuses p.productId PendingStatus.finishing }
              let st4 : PState :=
                { st3 with statuses := updateStatus st3.statuses p.productId PendingStatus.completed }
              (st4,
               ⟨[p], [p], 0, if env.finishFails then 1 else 0,
                [PendingStatus.validating, PendingStatus.finishing, PendingStatus.completed]⟩,
               RunExit.completedRun)

/-- `IapEventsProcessor.processError` (source lines 139-144): discard when
the generation token is stale, otherwise only log a warning (returned as a
count); it never mutates purchase state and never emits a domain event. -/
def processError (selfId : String) (st : PState) : PState × Nat :=
  if st.activeProcessor ≠ selfId then (st, 0) else (st, 1)

/-- The wait loop of source lines 85-90 over a trace of statuses: `s i` is
the pending status of the product observed at the `i`-th 100 ms poll.
`waitPoll s fuel` returns the first poll index (among `1..fuel`) at which the
status is no longer `validating`, and `none` when no poll within `fuel`
steps observes that.  The source loop is `while (true)` — it corresponds to
unlimited fuel, so it returns exactly when some finite fuel suffices. -/
def waitPoll (s : Nat → PendingStatus) : Nat → Option Nat
  | 0 => Option.none
  | n + 1 =>
      match waitPoll s n with
      | Option.some i => Option.some i
      | Option.none =>
          if s (n + 1) ≠ PendingStatus.validating then Option.some (n + 1)
          else Option.none

/-! ### Interleaving machine

Concurrent `processPurchase` invocations interleave only at `await` points.
Each task is at one of the program points below; `taskStep` executes the
code's next atomic await-to-await block for that task. -/

/-- Program points of a `processPurchase` invocation, one per atomic block
between `await` points of the source. -/
inductive TaskPC
  | entry
  | waiting
  | inValidate
  | inFinishUnverified
  | inFinishVerified
  | doneCompleted
  | doneRaised
  | doneWaitServed
deriving DecidableEq, Repr

/-- A running `processPurchase` invocation: its program point and its
purchase event. -/
structure Task where
  pc : TaskPC
  p : Purchase
deriving DecidableEq, Repr

/-- The shared configuration of the interleaving machine: the per-product
status map plus every in-flight invocation. -/
structure Sys where
  statuses : List (String × PendingStatus)
  tasks : List Task
deriving DecidableEq, Repr

/-- Run one atomic block of a task against the shared status map, returning
the updated task and map.  The blocks mirror the source exactly:
  * `entry` (lines 83-94, synchronous): if the product's status is
    `validating` go wait; otherwise set `validating` and start the
    validation call;
  * `waiting` (lines 85-90, one poll after a 100 ms sleep): if the status
    left `validating`, return the cached purchase, else keep waiting;
  * `inValidate` (the `await iaptic.validate` resumption, lines 94-108 and
    116-127): on error stop (status untouched); on `verified = false` set
    `finishing` and start the finalize call; on `verified = true` either
    complete a consumable directly or set `finishing` and start finalize;
  * the two finish resumptions (lines 101-107 and 127-136): set `completed`. -/
def taskStep (env : Env) (t : Task) (statuses : List (String × PendingStatus)) :
    Task × List (String × PendingStatus) :=
  match t.pc with
  | TaskPC.entry =>
      if getStatusL statuses t.p.productId = PendingStatus.validating then
        ({ t with pc := TaskPC.waiting }, statuses)
      else
        ({ t with pc := TaskPC.inValidate },
         updateStatus statuses t.p.productId PendingStatus.validating)
  | TaskPC.waiting =>
      if getStatusL statuses t.p.productId ≠ PendingStatus.validating then
        ({ t with pc := TaskPC.doneWaitServed }, statuses)
      else
        (t, statuses)
  | TaskPC.inValidate =>
      match env.validate with
      | ValidateOutcome.err => ({ t with pc := TaskPC.doneRaised }, statuses)
      | ValidateOutcome.ok false =>
          ({ t with pc := TaskPC.inFinishUnverified },
           updateStatus statuses t.p.productId PendingStatus.finishing)
      | ValidateOutcome.ok true =>
          match env.ptype with
          | ProductType.consumable =>
              ({ t with pc := TaskPC.doneCompleted },
               updateStatus statuses t.p.productId PendingStatus.completed)
          | _ =>
              ({ t with pc := TaskPC.inFinishVerified },
               updateStatus statuses t.p.productId PendingStatus.finishing)
  | TaskPC.inFinishUnverified =>
      ({ t with pc := TaskPC.doneCompleted },
       updateStatus statuses t.p.productId PendingStatus.completed)
  | TaskPC.inFinishVerified =>
      ({ t with pc := TaskPC.doneCompleted },
       updateStatus statuses t.p.productId PendingStatus.completed)
  | _ => (t, statuses)

/-- Scheduler step: run the next atomic block of task `i`. -/
def sysStep (env : Env) (sys : Sys) (i : Nat) : Sys :=
  match sys.tasks.get? i with
  | Option.none => sys
  | Option.some t =>
      let r := taskStep env t sys.statuses
      { statuses := r.2, tasks := sys.tasks.set i r.1 }

/-- Run a whole schedule (a list of task indices) from a configuration. -/
def runSched (env : Env) (sys : Sys) : List Nat → Sys
  | [] => sys
  | i :: rest => runSched env (sysStep env sys i) rest

/-- Number of tasks of the configuration whose validation call to the
external Validation Client is currently in flight for product `pid`. -/
def countInValidate (sys : Sys) (pid : String) : Nat :=
  (sys.tasks.filter
    (fun t => t.pc = TaskPC.inValidate ∧ t.p.productId = pid)).length

/-! ### Coalescing queue

`DebouncedProcessor` is referenced by the source (lines 4 and 27-28) but its
own file is not part of the sources at hand, so it is modelled from the
specification. -/

/-- Modelled from the spec: the Coalescing Queue (`DebouncedProcessor`,
§4.2), whose source file is missing from the repository snapshot.  Its state
within one coalescing window is the pending payloads keyed by dedup key;
`add` computes the key and either schedules the event or replaces the
pending payload with the newest one (last-write-wins), never invoking the
handler itself. -/
def addEvent {α : Type} (key : α → String) (pending : List (String × α))
    (e : α) : List (String × α) :=
  setKey pending (key e) e

/-- Modelled from the spec: when the coalescing window elapses the handler
runs once per scheduled key, on the latest pending payload.  The returned
list holds the handler invocations, in key order. -/
def flushInvocations {α : Type} (pending : List (String × α)) : List α :=
  pending.map Prod.snd

/-- The last payload submitted in the burst `d :: es`. -/
def lastPayload {α : Type} : α → List α → α
  | d, [] => d
  | _, e :: es => lastPayload e es

/-! ### Purchase result cache with expiry timers

Source lines 66-69: `purchases.set(identity, purchase)` followed by
`setTimeout(() => purchases.delete(identity), 60000)`.  We model the cache
contents at a given time by replaying, in time order, every `set` and every
scheduled `delete` whose time has arrived. -/

/-- A cache action: a `Map.set` performed by a `processPurchase` run, or the
`Map.delete` its 60 s timer schedules. -/
inductive CacheAction
  | putA (time : Nat) (ident : String) (event : Purchase)
  | delA (time : Nat) (ident : String)
deriving DecidableEq, Repr

/-- When a cache action fires. -/
def actionTime : CacheAction → Nat
  | CacheAction.putA t _ _ => t
  | CacheAction.delA t _ => t

/-- Insert an action into a time-sorted action list (stable for ties). -/
def insertByTime (a : CacheAction) : List CacheAction → List CacheAction
  | [] => [a]
  | b :: bs =>
      if actionTime a < actionTime b then a :: b :: bs else b :: insertByTime a bs

/-- Sort actions by firing time. -/
def sortByTime (l : List CacheAction) : List CacheAction :=
  l.foldr insertByTime []

/-- Apply one action to the cache map. -/
def applyAction (m : List (String × Purchase)) : CacheAction → List (String × Purchase)
  | CacheAction.putA _ ident e => setKey m ident e
  | CacheAction.delA _ ident => removeKey m ident

/-- The actions generated by a list of timed puts: each put `Map.set`s at
its own time and schedules a `Map.delete` of the same identity 60000 ms
later (source lines 66-69). -/
def actionsOfPuts (puts : List (Nat × String × Purchase)) : List CacheAction :=
  puts.map (fun q => CacheAction.putA q.1 q.2.1 q.2.2) ++
    puts.map (fun q => CacheAction.delA (q.1 + 60000) q.2.1)

/-- Cache contents at time `t`: replay every action that has fired by `t`,
in time order. -/
def cacheAt (puts : List (Nat × String × Purchase)) (t : Nat) :
    List (String × Purchase) :=
  ((sortByTime (actionsOfPuts puts)).filter (fun a => actionTime a ≤ t)).foldl
    applyAction []

/-- `get(identity)` against the cache at time `t`. -/
def getAt (puts : List (Nat × String × Purchase)) (t : Nat) (ident : String) :
    Option Purchase :=
  lookupKey (cacheAt puts t) ident

/-! ### Listener registry -/

/-- The listener-lifecycle state: the process-wide
`active_iap_events_processor` global and whether the two raw-event channel
subscriptions (`onPurchaseUpdate`, `onPurchaseError`) are installed. -/
structure ListenerState where
  activeProcessor : String
  purchaseSub : Bool
  errorSub : Bool
deriving DecidableEq, Repr

/-- The `IapEventsProcessor` constructor (lines 35-37):
`globalsSet('active_iap_events_processor', this.id)`. -/
def constructProcessor (selfId : String) (st : ListenerState) : ListenerState :=
  { st with activeProcessor := selfId }

/-- `addListeners` (lines 39-44): a no-op when already subscribed, else
subscribe both channels. -/
def addListeners (st : ListenerState) : ListenerState :=
  if st.purchaseSub then st
  else { st with purchaseSub := true, errorSub := true }

/-- `removeListeners` (lines 46-51): optional-chained `remove()` on both
subscriptions, then clear both fields.  It does not touch the
`active_iap_events_processor` global. -/
def removeListeners (st : ListenerState) : ListenerState :=
  { st with purchaseSub := false, errorSub := false }

/-- Whether an event stamped with processor id `selfId` passes the liveness
check of lines 60-62 / 140-142. -/
def isLive (st : ListenerState) (selfId : String) : Bool :=
  st.activeProcessor = selfId

/-! ### Helper lemmas -/

theorem lookupKey_setKey_self {α : Type} (m : List (String × α)) (k : String) (v : α) :
    lookupKey (setKey m k v) k = Option.some v := by
  induction m with
  | nil => simp [setKey, lookupKey]
  | cons kv rest ih =>
      rcases kv with ⟨k', v'⟩
      by_cases h : k' = k <;> simp [setKey, h, lookupKey, ih]

theorem getStatus_update_self (m : List (String × PendingStatus)) (pid : String)
    (s : PendingStatus) : getStatusL (updateStatus m pid s) pid = s := by
  simp [getStatusL, updateStatus, lookupKey_setKey_self]

/-! ### Claim theorems -/

/-- C7: a purchase event or an error event whose generation token is not the
current live token is discarded: `processPurchase` and `processError` return
immediately with the state unchanged, no cache write, no status write, no
validation or finalize call, and no domain event emitted. -/
theorem c7_stale_generation_discard (selfId : String) (env : Env) (st : PState)
    (p : Purchase) (bg : Bool) (h : st.activeProcessor ≠ selfId) :
    processPurchase selfId env st p bg = (st, noEffects, RunExit.skippedStale) ∧
    processError selfId st = (st, 0) := by
  constructor
  · simp [processPurchase, h]
  · simp [processError, h]

/-- Witness for C7 at a concrete stale configuration. -/
theorem c7_stale_generation_discard_witness :
    processPurchase "new" ⟨ValidateOutcome.ok true, ProductType.consumable, false⟩
        ⟨"old", [], []⟩ ⟨"p1", Option.none, 0⟩ true =
      (⟨"old", [], []⟩, noEffects, RunExit.skippedStale) ∧
    processError "new" ⟨"old", [], []⟩ = (⟨"old", [], []⟩, 0) :=
  c7_stale_generation_discard "new" ⟨ValidateOutcome.ok true, ProductType.consumable, false⟩
    ⟨"old", [], []⟩ ⟨"p1", Option.none, 0⟩ true (by decide)

/-- C8: success-path postcondition of `processPurchase` for a live, freshly
arriving event.  When validation resolves `verified = false`, the finalize
call is attempted exactly once regardless of product type, a finalize
failure is only logged (the run still completes, no error surfaced), the
status is written `validating`, `finishing`, `completed` and ends
`completed`.  When validation resolves `verified = true`, a consumable is
left unfinished while a non-consumable or paid subscription is finalized
exactly once (same failure tolerance), and the status ends `completed`. -/
theorem c8_success_postcondition (selfId : String) (env : Env) (st : PState)
    (p : Purchase) (bg : Bool) (hlive : st.activeProcessor = selfId)
    (hnv : getStatusL st.statuses p.productId ≠ PendingStatus.validating) :
    (env.validate = ValidateOutcome.ok false →
      (processPurchase selfId env st p bg).2.1.finishCalls = [p] ∧
      (processPurchase selfId env st p bg).2.1.statusWrites =
        [PendingStatus.validating, PendingStatus.finishing, PendingStatus.completed] ∧
      getStatusL (processPurchase selfId env st p bg).1.statuses p.productId =
        PendingStatus.completed ∧
      (processPurchase selfId env st p bg).2.2 = RunExit.completedRun ∧
      (processPurchase selfId env st p bg).2.1.errorEvents = 0 ∧
      (env.finishFails = true →
        (processPurchase selfId env st p bg).2.1.finishFailLogs = 1)) ∧
    (env.validate = ValidateOutcome.ok true → env.ptype = ProductType.consumable →
      (processPurchase selfId env st p bg).2.1.finishCalls = [] ∧
      getStatusL (processPurchase selfId env st p bg).1.statuses p.productId =
        PendingStatus.completed ∧
      (processPurchase selfId env st p bg).2.2 = RunExit.completedRun ∧
      (processPurchase selfId env st p bg).2.1.errorEvents = 0) ∧
    (env.validate = ValidateOutcome.ok true → env.ptype ≠ ProductType.consumable →
      (processPurchase selfId env st p bg).2.1.finishCalls = [p] ∧
      (processPurchase selfId env st p bg).2.1.statusWrites =
        [PendingStatus.validating, PendingStatus.finishing, PendingStatus.completed] ∧
      getStatusL (processPurchase selfId env st p bg).1.statuses p.productId =
        PendingStatus.completed ∧
      (processPurchase selfId env st p bg).2.2 = RunExit.completedRun ∧
      (processPurchase selfId env st p bg).2.1.errorEvents = 0 ∧
      (env.finishFails = true →
        (processPurchase selfId env st p bg).2.1.finishFailLogs = 1)) := by
  refine ⟨?_, ?_, ?_⟩
  · intro hv
    simp [processPurchase, hlive, hnv, hv, getStatus_update_self]
  · intro hv hty
    simp [processPurchase, hlive, hnv, hv, hty, getStatus_update_self]
  · intro hv hty
    rcases env with ⟨v, pt, ff⟩
    rcases pt with _ | _ | _
    · exact absurd rfl hty
    · simp at hv
      subst hv
      simp [processPurchase, hlive, hnv, getStatus_update_self]
    · simp at hv
      subst hv
      simp [processPurchase, hlive, hnv, getStatus_update_self]

/-- Witness for C8: a concrete verified non-consumable purchase whose
finalize call fails is still finalized once, logged once, and completed. -/
theorem c8_success_postcondition_witness :
    (processPurchase "me" ⟨ValidateOutcome.ok true, ProductType.nonConsumable, true⟩
        ⟨"me", [], []⟩ ⟨"p1", Option.some "tx1", 0⟩ true).2.1.finishCalls =
      [⟨"p1", Option.some "tx1", 0⟩] ∧
    (processPurchase "me" ⟨ValidateOutcome.ok true, ProductType.nonConsumable, true⟩
        ⟨"me", [], []⟩ ⟨"p1", Option.some "tx1", 0⟩ true).2.1.statusWrites =
      [PendingStatus.validating, PendingStatus.finishing, PendingStatus.completed] ∧
    getStatusL (processPurchase "me" ⟨ValidateOutcome.ok true, ProductType.nonConsumable, true⟩
        ⟨"me", [], []⟩ ⟨"p1", Option.some "tx1", 0⟩ true).1.statuses "p1" =
      PendingStatus.completed ∧
    (processPurchase "me" ⟨ValidateOutcome.ok true, ProductType.nonConsumable, true⟩
        ⟨"me", [], []⟩ ⟨"p1", Option.some "tx1", 0⟩ true).2.2 = RunExit.completedRun ∧
    (processPurchase "me" ⟨ValidateOutcome.ok true, ProductType.nonConsumable, true⟩
        ⟨"me", [], []⟩ ⟨"p1", Option.some "tx1", 0⟩ true).2.1.errorEvents = 0 ∧
    (processPurchase "me" ⟨ValidateOutcome.ok true, ProductType.nonConsumable, true⟩
        ⟨"me", [], []⟩ ⟨"p1", Option.some "tx1", 0⟩ true).2.1.finishFailLogs = 1 := by
  have h :=
    (c8_success_postcondition "me" ⟨ValidateOutcome.ok true, ProductType.nonConsumable, true⟩
      ⟨"me", [], []⟩ ⟨"p1", Option.some "tx1", 0⟩ true rfl (by decide)).2.2 rfl (by decide)
  exact ⟨h.1, h.2.1, h.2.2.1, h.2.2.2.1, h.2.2.2.2.1, h.2.2.2.2.2 rfl⟩

/-- C9: when the validation call rejects, `processPurchase` surfaces a
classified error — rethrown to the caller in foreground, emitted as one
`error` domain event in background — makes no finalize call, and performs no
state change beyond the entry cache write and the `validating` status write,
so the product's pending status remains `validating`. -/
theorem c9_validation_failure (selfId : String) (env : Env) (st : PState)
    (p : Purchase) (bg : Bool) (hlive : st.activeProcessor = selfId)
    (hnv : getStatusL st.statuses p.productId ≠ PendingStatus.validating)
    (herr : env.validate = ValidateOutcome.err) :
    getStatusL (processPurchase selfId env st p bg).1.statuses p.productId =
      PendingStatus.validating ∧
    (processPurchase selfId env st p bg).1.statuses =
      updateStatus st.statuses p.productId PendingStatus.validating ∧
    (processPurchase selfId env st p bg).1.cache = setKey st.cache (identityOf p) p ∧
    (processPurchase selfId env st p bg).1.activeProcessor = st.activeProcessor ∧
    (processPurchase selfId env st p bg).2.1.finishCalls = [] ∧
    (bg = true → (processPurchase selfId env st p bg).2.2 = RunExit.emittedError ∧
      (processPurchase selfId env st p bg).2.1.errorEvents = 1) ∧
    (bg = false → (processPurchase selfId env st p bg).2.2 = RunExit.raisedError ∧
      (processPurchase selfId env st p bg).2.1.errorEvents = 0) := by
  rcases bg with _ | _ <;>
    simp [processPurchase, hlive, hnv, herr, getStatus_update_self]

/-- Witness for C9 at a concrete background validation failure. -/
theorem c9_validation_failure_witness :
    getStatusL (processPurchase "me" ⟨ValidateOutcome.err, ProductType.consumable, false⟩
        ⟨"me", [], []⟩ ⟨"p1", Option.some "tx1", 0⟩ true).1.statuses "p1" =
      PendingStatus.validating ∧
    (processPurchase "me" ⟨ValidateOutcome.err, ProductType.consumable, false⟩
        ⟨"me", [], []⟩ ⟨"p1", Option.some "tx1", 0⟩ true).1.statuses =
      updateStatus [] "p1" PendingStatus.validating ∧
    (processPurchase "me" ⟨ValidateOutcome.err, ProductType.consumable, false⟩
        ⟨"me", [], []⟩ ⟨"p1", Option.some "tx1", 0⟩ true).1.cache =
      setKey [] (identityOf ⟨"p1", Option.some "tx1", 0⟩) ⟨"p1", Option.some "tx1", 0⟩ ∧
    (processPurchase "me" ⟨ValidateOutcome.err, ProductType.consumable, false⟩
        ⟨"me", [], []⟩ ⟨"p1", Option.some "tx1", 0⟩ true).1.activeProcessor = "me" ∧
    (processPurchase "me" ⟨ValidateOutcome.err, ProductType.consumable, false⟩
        ⟨"me", [], []⟩ ⟨"p1", Option.some "tx1", 0⟩ true).2.1.finishCalls = [] ∧
    (true = true → (processPurchase "me" ⟨ValidateOutcome.err, ProductType.consumable, false⟩
        ⟨"me", [], []⟩ ⟨"p1", Option.some "tx1", 0⟩ true).2.2 = RunExit.emittedError ∧
      (processPurchase "me" ⟨ValidateOutcome.err, ProductType.consumable, false⟩
        ⟨"me", [], []⟩ ⟨"p1", Option.some "tx1", 0⟩ true).2.1.errorEvents = 1) ∧
    (true = false → (processPurchase "me" ⟨ValidateOutcome.err, ProductType.consumable, false⟩
        ⟨"me", [], []⟩ ⟨"p1", Option.some "tx1", 0⟩ true).2.2 = RunExit.raisedError ∧
      (processPurchase "me" ⟨ValidateOutcome.err, ProductType.consumable, false⟩
        ⟨"me", [], []⟩ ⟨"p1", Option.some "tx1", 0⟩ true).2.1.errorEvents = 0) :=
  c9_validation_failure "me" ⟨ValidateOutcome.err, ProductType.consumable, false⟩
    ⟨"me", [], []⟩ ⟨"p1", Option.some "tx1", 0⟩ true rfl (by decide) rfl

theorem waitPoll_always_validating (n : Nat) :
    waitPoll (fun _ => PendingStatus.validating) n = Option.none := by
  induction n with
  | zero => rfl
  | succ n ih => simp [waitPoll, ih]

/-- C1: the wait of `processPurchase` on a peer validation is the
`while (true)` poll loop of lines 85-90, modelled by `waitPoll` over the
trace of observed statuses.  Against the peer behaviour in which the status
never leaves `validating`, no number of polls ever returns: the loop has no
timeout and never fails with a classified timeout error, contradicting the
claimed bounded wait. -/
theorem c1_wait_never_terminates :
    ¬ ∃ n : Nat, (waitPoll (fun _ => PendingStatus.validating) n).isSome = true := by
  rintro ⟨n, h⟩
  rw [waitPoll_always_validating] at h
  simp at h

/-- C2 counterexample: one purchase event for transaction `tx42` delivered
twice, the second delivery processed after the first run reached
`completed` (for example a platform redelivery arriving after the
coalescing window).  The second run observes status `completed`, validates
again and finalizes again: `IAP.finishTransaction` is invoked twice for
`tx42`, so "at most once per transaction identifier" fails. -/
theorem c2_counterexample :
    ¬ (((processPurchase "me" ⟨ValidateOutcome.ok true, ProductType.nonConsumable, false⟩
            ⟨"me", [], []⟩ ⟨"p1", Option.some "tx42", 0⟩ true).2.1.finishCalls ++
        (processPurchase "me" ⟨ValidateOutcome.ok true, ProductType.nonConsumable, false⟩
            (processPurchase "me" ⟨ValidateOutcome.ok true, ProductType.nonConsumable, false⟩
              ⟨"me", [], []⟩ ⟨"p1", Option.some "tx42", 0⟩ true).1
            ⟨"p1", Option.some "tx42", 0⟩ true).2.1.finishCalls).length ≤ 1) := by
  decide

/-- C2 amended: within any single `processPurchase` invocation,
`IAP.finishTransaction` is invoked at most once; the at-most-once guarantee
does not extend across separate processing runs of redelivered events. -/
theorem c2_finish_at_most_once_per_run (selfId : String) (env : Env) (st : PState)
    (p : Purchase) (bg : Bool) :
    (processPurchase selfId env st p bg).2.1.finishCalls.length ≤ 1 := by
  rcases env with ⟨v, pt, ff⟩
  rcases v with verified | _
  · rcases verified with _ | _
    · simp only [processPurchase]
      split
      · simp [noEffects]
      · split
        · simp [noEffects]
        · simp
    · rcases pt with _ | _ | _ <;>
        · simp only [processPurchase]
          split
          · simp [noEffects]
          · split
            · simp [noEffects]
            · simp
  · simp only [processPurchase]
    split
    · simp [noEffects]
    · split
      · simp [noEffects]
      · split <;> simp

/-- C3: a concrete interleaving of three `processPurchase` invocations for
the same product `p1` (three deliveries with distinct transaction
identifiers, so the coalescing queue keeps all three) in which two
validation calls to the external Validation Client are in flight at once.
Schedule: task 0 enters and starts validating; its validation resolves
`verified = true` for a non-consumable, so it sets `finishing` and awaits
finalize; task 1 enters, sees `finishing` (not `validating`), and starts a
second validation; task 0's finalize resolves and sets `completed`; task 2
enters, sees `completed`, and starts a third validation while task 1's is
still in flight.  Mutual exclusion of `validate` per product fails. -/
theorem c3_two_validations_in_flight :
    countInValidate
        (runSched ⟨ValidateOutcome.ok true, ProductType.nonConsumable, false⟩
          ⟨[], [⟨TaskPC.entry, ⟨"p1", Option.some "tx1", 0⟩⟩,
                ⟨TaskPC.entry, ⟨"p1", Option.some "tx2", 1⟩⟩,
                ⟨TaskPC.entry, ⟨"p1", Option.some "tx3", 2⟩⟩]⟩
          [0, 0, 1, 0, 2]) "p1" = 2 ∧
    ¬ (countInValidate
        (runSched ⟨ValidateOutcome.ok true, ProductType.nonConsumable, false⟩
          ⟨[], [⟨TaskPC.entry, ⟨"p1", Option.some "tx1", 0⟩⟩,
                ⟨TaskPC.entry, ⟨"p1", Option.some "tx2", 1⟩⟩,
                ⟨TaskPC.entry, ⟨"p1", Option.some "tx3", 2⟩⟩]⟩
          [0, 0, 1, 0, 2]) "p1" ≤ 1) := by
  decide

theorem coalesce_fold_from_single {α : Type} (key : α → String) (k : String) :
    ∀ (es : List α) (v : α), (∀ e ∈ es, key e = k) →
      es.foldl (addEvent key) [(k, v)] = [(k, lastPayload v es)] := by
  intro es
  induction es with
  | nil => intro v _; rfl
  | cons e rest ih =>
      intro v hk
      have hke : key e = k := hk e (by simp)
      have hrest : ∀ x ∈ rest, key x = k := fun x hx => hk x (by simp [hx])
      have hstep : addEvent key [(k, v)] e = [(k, e)] := by
        simp [addEvent, setKey, hke]
      simp only [List.foldl_cons, hstep, lastPayload]
      exact ih e hrest

/-- C4: coalescing correctness of the Coalescing Queue
(`DebouncedProcessor`, modelled from spec §4.2 since its source file is
missing from the snapshot).  For a burst `d :: es` of events whose dedup
keys are all `k`, submitted via `add` within one coalescing window, flushing
the window produces exactly one handler invocation, whose argument is the
payload of the last event submitted; the `add` calls themselves invoke no
handler (they only update the pending map), so no caller of `add` blocks. -/
theorem c4_coalescing {α : Type} (key : α → String) (k : String) (d : α)
    (es : List α) (hk : ∀ e ∈ d :: es, key e = k) :
    flushInvocations ((d :: es).foldl (addEvent key) []) = [lastPayload d es] ∧
    ((d :: es).foldl (addEvent key) []).length = 1 := by
  have hd : key d = k := hk d (by simp)
  have hrest : ∀ x ∈ es, key x = k := fun x hx => hk x (by simp [hx])
  have h0 : addEvent key [] d = [(k, d)] := by simp [addEvent, setKey, hd]
  have hfold : (d :: es).foldl (addEvent key) [] = [(k, lastPayload d es)] := by
    simp only [List.foldl_cons, h0]
    exact coalesce_fold_from_single key k es d hrest
  rw [hfold]
  constructor
  · rfl
  · rfl

/-- Witness for C4: a burst of three deliveries of transaction `tx42`
coalesces into a single invocation on the last payload. -/
theorem c4_coalescing_witness :
    flushInvocations
        (([⟨"p1", Option.some "tx42", 0⟩, ⟨"p1", Option.some "tx42", 1⟩,
           ⟨"p1", Option.some "tx42", 2⟩] : List Purchase).foldl (addEvent dedupKey) []) =
      [lastPayload (⟨"p1", Option.some "tx42", 0⟩ : Purchase)
        [⟨"p1", Option.some "tx42", 1⟩, ⟨"p1", Option.some "tx42", 2⟩]] ∧
    (([⟨"p1", Option.some "tx42", 0⟩, ⟨"p1", Option.some "tx42", 1⟩,
       ⟨"p1", Option.some "tx42", 2⟩] : List Purchase).foldl (addEvent dedupKey) []).length = 1 :=
  c4_coalescing dedupKey "tx42" ⟨"p1", Option.some "tx42", 0⟩
    [⟨"p1", Option.some "tx42", 1⟩, ⟨"p1", Option.some "tx42", 2⟩] (by decide)

/-- C10: a purchase event without a transaction identifier is cached under
its product identifier (`identityOf` falls back to `productId`, source line
66), while its dedup key falls back to the empty string (source line 27).
Hence two transaction-id-less events — even for different products — share
the dedup key `""` and are coalesced last-write-wins into a single
processing invocation within one window. -/
theorem c10_no_txid_coalescing (e1 e2 : Purchase)
    (h1 : e1.transactionId = Option.none) (h2 : e2.transactionId = Option.none) :
    dedupKey e1 = "" ∧ dedupKey e2 = "" ∧
    identityOf e1 = e1.productId ∧ identityOf e2 = e2.productId ∧
    flushInvocations (addEvent dedupKey (addEvent dedupKey [] e1) e2) = [e2] := by
  simp [dedupKey, identityOf, h1, h2, addEvent, setKey, flushInvocations]

/-- Witness for C10: two id-less events for distinct products `p1` and `p2`
coalesce into one invocation carrying the second event. -/
theorem c10_no_txid_coalescing_witness :
    dedupKey (⟨"p1", Option.none, 1⟩ : Purchase) = "" ∧
    dedupKey (⟨"p2", Option.none, 2⟩ : Purchase) = "" ∧
    identityOf (⟨"p1", Option.none, 1⟩ : Purchase) = "p1" ∧
    identityOf (⟨"p2", Option.none, 2⟩ : Purchase) = "p2" ∧
    flushInvocations
        (addEvent dedupKey (addEvent dedupKey [] (⟨"p1", Option.none, 1⟩ : Purchase))
          (⟨"p2", Option.none, 2⟩ : Purchase)) = [⟨"p2", Option.none, 2⟩] :=
  c10_no_txid_coalescing ⟨"p1", Option.none, 1⟩ ⟨"p2", Option.none, 2⟩ rfl rfl

/-- C5 counterexample: two puts for the same identity `p1`, at 0 ms and at
50000 ms.  The first put's deletion timer fires at 60000 ms and removes the
entry the second put refreshed.  A `get` at 61000 ms — well within the
60-second retention window of the matching (most recent) put — misses,
refuting "a hit is guaranteed within the window of the most recent put
regardless of earlier puts". -/
theorem c5_counterexample :
    getAt [(0, "p1", ⟨"p1", Option.none, 1⟩), (50000, "p1", ⟨"p1", Option.none, 2⟩)]
        61000 "p1" = Option.none ∧
    50000 ≤ 61000 ∧ 61000 < 50000 + 60000 := by
  refine ⟨by decide, by decide, by decide⟩

/-- C5 amended: the TTL contract holds for an identity with a single put in
scope.  A `get` at or after the put and strictly within its 60-second
retention window hits with the put's event, and a `get` from the window's
end on misses (the deletion timer fires exactly at the window end, so the
sweep slack is zero).  With overlapping puts for the same identity the
earlier put's timer still fires 60 s after that earlier put and removes the
refreshed entry, so the window is not extended. -/
theorem c5_single_put_ttl (t0 t : Nat) (ident : String) (e : Purchase) :
    (t0 ≤ t → t < t0 + 60000 → getAt [(t0, ident, e)] t ident = Option.some e) ∧
    (t0 + 60000 ≤ t → getAt [(t0, ident, e)] t ident = Option.none) := by
  have hlt : t0 < t0 + 60000 := by omega
  constructor
  · intro h1 h2
    have hd : ¬ (t0 + 60000 ≤ t) := by omega
    simp [getAt, cacheAt, sortByTime, actionsOfPuts, insertByTime, actionTime,
      applyAction, setKey, lookupKey, hlt, h1, h2, hd]
  · intro hd
    have h1 : t0 ≤ t := by omega
    simp [getAt, cacheAt, sortByTime, actionsOfPuts, insertByTime, actionTime,
      applyAction, setKey, removeKey, lookupKey, hlt, h1, hd]

/-- Witness for C5's amended TTL theorem: a put at 0 ms hits at 59999 ms and
misses at 60000 ms. -/
theorem c5_single_put_ttl_witness :
    getAt [(0, "a", ⟨"a", Option.none, 3⟩)] 59999 "a" =
      Option.some ⟨"a", Option.none, 3⟩ ∧
    getAt [(0, "a", ⟨"a", Option.none, 3⟩)] 60000 "a" = Option.none :=
  ⟨(c5_single_put_ttl 0 59999 "a" ⟨"a", Option.none, 3⟩).1 (by decide) (by decide),
   (c5_single_put_ttl 0 60000 "a" ⟨"a", Option.none, 3⟩).2 (by decide)⟩

/-- C6 counterexample: construct processor `a` (which makes its token live),
start it, then stop it via `removeListeners`.  Both channels are
unsubscribed, but the generation token is *not* invalidated: an event
stamped with `a` still passes the liveness check, and a purchase stamped
with `a` is still fully processed (the run completes and mutates state)
after the stop. -/
theorem c6_counterexample :
    isLive (removeListeners (addListeners (constructProcessor "a" ⟨"x", false, false⟩)))
        "a" = true ∧
    (removeListeners (addListeners (constructProcessor "a" ⟨"x", false, false⟩))).purchaseSub
        = false ∧
    (removeListeners (addListeners (constructProcessor "a" ⟨"x", false, false⟩))).errorSub
        = false ∧
    (processPurchase "a" ⟨ValidateOutcome.ok true, ProductType.consumable, false⟩
        ⟨"a", [], []⟩ ⟨"p1", Option.none, 0⟩ true).2.2 = RunExit.completedRun := by
  decide

/-- C6 amended: `removeListeners` unsubscribes both raw event channels,
is safe to call when not started (a no-op then), and leaves the generation
token untouched; the token of a processor is invalidated only when a
replacement processor is constructed, whose construction supersedes every
other id. -/
theorem c6_stop_unsubscribes (st : ListenerState) (a b : String) (hab : a ≠ b) :
    (removeListeners st).purchaseSub = false ∧
    (removeListeners st).errorSub = false ∧
    (removeListeners st).activeProcessor = st.activeProcessor ∧
    (st.purchaseSub = false → st.errorSub = false → removeListeners st = st) ∧
    isLive (constructProcessor b st) a = false := by
  refine ⟨rfl, rfl, rfl, ?_, ?_⟩
  · intro h1 h2
    rcases st with ⟨ap, ps, es⟩
    simp only [removeListeners]
    simp at h1 h2
    simp [h1, h2]
  · simp [isLive, constructProcessor]
    exact fun h => hab h.symm

/-- Witness for C6's amended theorem at a concrete started state. -/
theorem c6_stop_unsubscribes_witness :
    (removeListeners ⟨"a", true, true⟩).purchaseSub = false ∧
    (removeListeners ⟨"a", true, true⟩).errorSub = false ∧
    (removeListeners ⟨"a", true, true⟩).activeProcessor = "a" ∧
    ((⟨"a", true, true⟩ : ListenerState).purchaseSub = false →
      (⟨"a", true, true⟩ : ListenerState).errorSub = false →
      removeListeners ⟨"a", true, true⟩ = ⟨"a", true, true⟩) ∧
    isLive (constructProcessor "b" ⟨"a", true, true⟩) "a" = false :=
  c6_stop_unsubscribes ⟨"a", true, true⟩ "a" "b" (by decide)

end IapCore
